import Mathlib

/-!
Shallow embedding of the chat widget component in
`src/src/components/PoliChat.tsx`.

The component holds all UI state in React hooks (message list, session
list, input text, loading flag, active-session pointer, view flags) and
talks to two external services: a session/message store (Supabase tables
`chat_sessions` and `chat_messages`) and an answering service (the
`mistral-chat` edge function, which also performs session deletion).

The embedding models the React state as an explicit record `WState`,
extended with two observable effect logs (`toasts` for the notifications
raised via `toast(...)` and `calls` for the network requests issued).
Each async handler of the component becomes a pure function from the
state to the state; the responses of the external services are supplied
as an explicit environment record, with `FetchResult` standing for the
resolved/failed outcome of each request.  Timestamps (`new Date()`,
`created_at`, `timestamp` columns) are modelled as natural numbers, and
the client-side `uuidv4()` as a string supplied by the environment.
-/

namespace PoliChat

/-- Kind of a displayed message: `type: "user" | "bot"` in `interface Message`. -/
inductive MsgType
  | user
  | bot
  deriving DecidableEq

/-- A message displayed in the widget (`interface Message` in the source);
`timestamp: Date` is modelled as a natural number. -/
structure Message where
  type : MsgType
  content : String
  timestamp : Nat
  deriving DecidableEq

/-- An entry of the session list (`interface ChatSession` in the source). -/
structure ChatSession where
  id : String
  title : String
  lastMessage : String
  timestamp : Nat
  isActive : Bool
  deriving DecidableEq

/-- A notification raised through `toast({title, description, variant})`;
`destructive` records whether `variant: "destructive"` was passed. -/
structure Toast where
  title : String
  description : String
  destructive : Bool
  deriving DecidableEq

/-- The message shape submitted to the answering service in `handleSend`
(the fields `text`, `sender`, `timestamp` of the objects pushed onto
`formattedMessages`; the random client-side `id` nonce is not modelled). -/
structure FormattedMsg where
  text : String
  sender : String
  timestamp : Nat
  deriving DecidableEq

/-- One network request issued by the component, in order of issue:
the `chat_sessions` select, the per-session last-message select, the
`chat_sessions` insert, the `chat_messages` select of a full session,
and the two invocations of the `mistral-chat` edge function. -/
inductive NetCall
  | selectSessions (userId : String)
  | selectLastMessage (sessionId : String)
  | insertSession (sessionId : String) (title : String) (userId : String)
  | selectMessages (sessionId : String)
  | invokeDeleteSession (sessionId : String)
  | invokeChat (sessionId : String) (userId : String) (msgs : List FormattedMsg)
  deriving DecidableEq

/-- Outcome of an awaited external request: either resolved data or the
error branch (`if (error) throw error` / a rejected promise). -/
inductive FetchResult (α : Type)
  | ok (data : α)
  | err
  deriving DecidableEq

/-- A row of the `chat_sessions` table as read by the component. -/
structure SessionRecord where
  id : String
  title : String
  created_at : Nat
  deriving DecidableEq

/-- A row of the `chat_messages` table as read by the component. -/
structure MessageRecord where
  sender : String
  content : String
  timestamp : Nat
  deriving DecidableEq

/-- The React state of the component (the `useState` hooks), extended
with the observable effect logs `toasts` and `calls`.  The `user` of the
auth context is modelled by its optional user id. -/
structure WState where
  isOpen : Bool
  isMaximized : Bool
  isHistoryOpen : Bool
  messages : List Message
  chatSessions : List ChatSession
  input : String
  isLoading : Bool
  currentSessionId : Option String
  user : Option String
  toasts : List Toast
  calls : List NetCall
  deriving DecidableEq

/-- A destructive toast, as raised by every `toast({title: "Error", ...,
variant: "destructive"})` in the source. -/
def errorToast (description : String) : Toast :=
  { title := "Error", description := description, destructive := true }

/-- A success toast (`toast({title: "Success", ...})`). -/
def successToast (description : String) : Toast :=
  { title := "Success", description := description, destructive := false }

/-- JavaScript `String.prototype.trim()`: drop leading and trailing
whitespace.  Defined over the character list so that it evaluates inside
the kernel. -/
def jsTrim (s : String) : String :=
  ⟨(((s.data.dropWhile Char.isWhitespace).reverse).dropWhile Char.isWhitespace).reverse⟩

/-- The preview text built in `fetchChatSessions`:
`content.substring(0, 30) + (content.length > 30 ? "..." : "")`. -/
def previewOf (content : String) : String :=
  content.take 30 ++ (if 30 < content.length then "..." else "")

/-- The session title shown in the list: `session.title || "Untitled Chat"`
(JavaScript `||` falls through on an absent or empty title). -/
def titleOrDefault (title : String) : String :=
  if title = "" then "Untitled Chat" else title

/-- Environment of `fetchChatSessions`: the outcome of the
`chat_sessions` select, and for each session id the row returned by the
per-session `chat_messages` select ordered newest-first with `limit(1)`
(so `lastMessageOf id` is the stored message of `id` with the greatest
timestamp, or `none` when the session has no stored message). -/
structure FetchEnv where
  sessionsResult : FetchResult (List SessionRecord)
  lastMessageOf : String → Option MessageRecord

/-- The `ChatSession` entry built for one fetched row inside
`fetchChatSessions` (the object returned by the `Promise.all` mapper). -/
def buildSessionEntry (currentSessionId : Option String) (env : FetchEnv)
    (s : SessionRecord) : ChatSession :=
  { id := s.id
    title := titleOrDefault s.title
    lastMessage :=
      match env.lastMessageOf s.id with
      | some m => previewOf m.content
      | none => ""
    timestamp := s.created_at
    isActive := some s.id == currentSessionId }

/-- The body of `fetchChatSessions` with the captured `currentSessionId`
made explicit.  In the source `fetchChatSessions` is a render-scope
closure: the `isActive: session.id === currentSessionId` comparison uses
the `currentSessionId` value of the render that created the closure, not
the value just written by `setCurrentSessionId` inside the same handler.
`closureSessionId` is that captured value; the handlers that call the
fetch after mutating the pointer pass their own (stale) render value.

The body: skip when no user; select the sessions of the user; on error
raise a destructive toast and leave the list unchanged; on an empty
result set the list to `[]`; otherwise rebuild the list from the rows,
marking active the row whose id equals the captured pointer. -/
def fetchChatSessionsWith (closureSessionId : Option String) (env : FetchEnv)
    (st : WState) : WState :=
  match st.user with
  | none => st
  | some userId =>
    let st1 := { st with calls := st.calls ++ [NetCall.selectSessions userId] }
    match env.sessionsResult with
    | .err =>
      { st1 with toasts := st1.toasts ++ [errorToast "Failed to load chat history."] }
    | .ok sessionsData =>
      if sessionsData.isEmpty then
        { st1 with chatSessions := [] }
      else
        { st1 with
            calls := st1.calls ++ sessionsData.map (fun s => NetCall.selectLastMessage s.id)
            chatSessions := sessionsData.map (buildSessionEntry closureSessionId env) }

/-- `fetchChatSessions` invoked as a fresh event (the mount effect or a
re-render): the captured pointer agrees with the committed state. -/
def fetchChatSessions (env : FetchEnv) (st : WState) : WState :=
  fetchChatSessionsWith st.currentSessionId env st

/-- Environment of `createNewChatSession`: the client-generated
`uuidv4()` id, the outcome of the `chat_sessions` insert (whose returned
row carries the same id), and the clock for `new Date()`. -/
structure CreateEnv where
  newSessionId : String
  insertResult : FetchResult Unit
  now : Nat

/-- `createNewChatSession`: require a user; insert a session row with a
default title; on error raise a toast; on success adopt the new id as
the active session, clear the message list, and prepend the new entry
(active) to the list with every previous entry marked inactive. -/
def createNewChatSession (env : CreateEnv) (st : WState) : WState :=
  match st.user with
  | none =>
    { st with toasts := st.toasts ++ [errorToast "You need to be logged in to create a chat session."] }
  | some userId =>
    let st1 := { st with calls := st.calls ++ [NetCall.insertSession env.newSessionId "New Chat" userId] }
    match env.insertResult with
    | .err =>
      { st1 with toasts := st1.toasts ++ [errorToast "Failed to create a new chat."] }
    | .ok _ =>
      let newSession : ChatSession :=
        { id := env.newSessionId, title := "New Chat", lastMessage := ""
          timestamp := env.now, isActive := true }
      { st1 with
          currentSessionId := some env.newSessionId
          messages := []
          chatSessions := newSession :: st1.chatSessions.map (fun s : ChatSession => { s with isActive := false }) }

/-- Environment of `loadChatSession`: the outcome of the `chat_messages`
select ordered ascending by timestamp, and the clock. -/
structure LoadEnv where
  messagesResult : FetchResult (List MessageRecord)
  now : Nat

/-- The mapping of a stored row into the `Message` shape inside
`loadChatSession` (`sender === "user" ? "user" : "bot"`; the
`msg.content || ""` and `msg.timestamp || new Date()` null-coalescing is
absorbed by the total fields of `MessageRecord`). -/
def formatStoredMessage (m : MessageRecord) : Message :=
  { type := if m.sender = "user" then MsgType.user else MsgType.bot
    content := m.content
    timestamp := m.timestamp }

/-- `loadChatSession`: set the loading flag, optimistically mark the
requested session active in the list, select its messages oldest-first;
on error raise a toast (leaving messages and the pointer unchanged); on
success replace the message list and adopt the id as active; finally
clear the loading flag. -/
def loadChatSession (env : LoadEnv) (sessionId : String) (st : WState) : WState :=
  let st1 :=
    { st with
        isLoading := true
        chatSessions := st.chatSessions.map (fun s : ChatSession => { s with isActive := s.id == sessionId }) }
  let st2 := { st1 with calls := st1.calls ++ [NetCall.selectMessages sessionId] }
  match env.messagesResult with
  | .err =>
    { st2 with
        toasts := st2.toasts ++ [errorToast "Failed to load chat messages."]
        isLoading := false }
  | .ok data =>
    { st2 with
        messages := data.map formatStoredMessage
        currentSessionId := some sessionId
        isLoading := false }

/-- Environment of `deleteChatSession`: the outcome of the
`mistral-chat` delete invocation and the environment of the re-fetch of
the session list performed on both outcomes. -/
structure DeleteEnv where
  deleteResult : FetchResult Unit
  refetch : FetchEnv

/-- `deleteChatSession`: set the loading flag, optimistically filter the
session out of the list, clear the conversation and the pointer when it
was the active one, invoke the delete command; on either outcome raise a
toast and re-fetch the session list; finally clear the loading flag.
The nested re-fetch is the render-scope closure, so its active-marking
compares against the pre-delete pointer `st.currentSessionId`, not the
pointer just cleared by `setCurrentSessionId(null)`. -/
def deleteChatSession (env : DeleteEnv) (sessionId : String) (st : WState) : WState :=
  let st1 :=
    { st with
        isLoading := true
        chatSessions := st.chatSessions.filter (fun s => s.id != sessionId) }
  let st2 :=
    if st1.currentSessionId == some sessionId then
      { st1 with messages := [], currentSessionId := none }
    else
      st1
  let st3 := { st2 with calls := st2.calls ++ [NetCall.invokeDeleteSession sessionId] }
  match env.deleteResult with
  | .err =>
    let st4 := { st3 with toasts := st3.toasts ++ [errorToast "Failed to delete chat. Please try again."] }
    { fetchChatSessionsWith st.currentSessionId env.refetch st4 with isLoading := false }
  | .ok _ =>
    let st4 := { st3 with toasts := st3.toasts ++ [successToast "Chat deleted successfully."] }
    { fetchChatSessionsWith st.currentSessionId env.refetch st4 with isLoading := false }

/-- Environment of `handleSend`: the `uuidv4()` generated when no
session is active, the clock, the outcome of the `mistral-chat`
invocation (carrying the `answer` text on success), and the environment
of the session-list re-fetch performed on success. -/
structure SendEnv where
  newSessionId : String
  now : Nat
  chatResult : FetchResult String
  refetch : FetchEnv

/-- `handleSend`: return unchanged on blank input (before the
try/finally, so nothing at all runs); clear the input field; require a
user — the unauthenticated return is inside the try, so the finally
still clears the loading flag; adopt a fresh session id when none is
active; optimistically append the user message and set the loading
flag; submit the prior conversation plus the new message to the
answering service; on error raise a toast; on success append the reply
as a bot message and re-fetch the session list (the nested render-scope
closure compares against the pre-send pointer `sessionId0`); finally
clear the loading flag. -/
def handleSend (env : SendEnv) (st : WState) : WState :=
  if jsTrim st.input = "" then st
  else
    let sessionId0 := st.currentSessionId
    let userMessage := jsTrim st.input
    let msgs0 := st.messages
    let st1 := { st with input := "" }
    match st.user with
    | none =>
      { st1 with
          toasts := st1.toasts ++ [errorToast "You need to be logged in to send messages."]
          isLoading := false }
    | some userId =>
      let st2 :=
        match sessionId0 with
        | none => { st1 with currentSessionId := some env.newSessionId }
        | some _ => st1
      let sessionId := sessionId0.getD env.newSessionId
      let newUserMessage : Message :=
        { type := MsgType.user, content := userMessage, timestamp := env.now }
      let st3 := { st2 with messages := st2.messages ++ [newUserMessage], isLoading := true }
      let formattedMessages : List FormattedMsg :=
        msgs0.map (fun m =>
          { text := m.content
            sender := if m.type = MsgType.user then "user" else "bot"
            timestamp := m.timestamp })
        ++ [{ text := userMessage, sender := "user", timestamp := env.now }]
      let st4 := { st3 with calls := st3.calls ++ [NetCall.invokeChat sessionId userId formattedMessages] }
      match env.chatResult with
      | .err =>
        { st4 with
            toasts := st4.toasts ++ [errorToast "Failed to get a response. Please try again."]
            isLoading := false }
      | .ok answer =>
        let botResponse : Message :=
          { type := MsgType.bot, content := answer, timestamp := env.now }
        let st5 := { st4 with messages := st4.messages ++ [botResponse] }
        { fetchChatSessionsWith sessionId0 env.refetch st5 with isLoading := false }

/-- One user-triggered operation of the component, for stating
properties quantified over all five operations. -/
inductive Op
  | list (env : FetchEnv)
  | create (env : CreateEnv)
  | load (env : LoadEnv) (sessionId : String)
  | del (env : DeleteEnv) (sessionId : String)
  | send (env : SendEnv)

/-- The state transition of one operation. -/
def step : Op → WState → WState
  | Op.list env, st => fetchChatSessions env st
  | Op.create env, st => createNewChatSession env st
  | Op.load env sid, st => loadChatSession env sid st
  | Op.del env sid, st => deleteChatSession env sid st
  | Op.send env, st => handleSend env st

/-- At most one entry of the session list is marked active. -/
def atMostOneActive (l : List ChatSession) : Prop :=
  l.countP (fun s => s.isActive) ≤ 1

instance (l : List ChatSession) : Decidable (atMostOneActive l) :=
  inferInstanceAs (Decidable (l.countP (fun s => s.isActive) ≤ 1))

/-- Every entry marked active carries the id held by the active-session
pointer. -/
def activeMatchesPointer (st : WState) : Prop :=
  ∀ s ∈ st.chatSessions, s.isActive = true → st.currentSessionId = some s.id

instance (st : WState) : Decidable (activeMatchesPointer st) :=
  inferInstanceAs
    (Decidable (∀ s ∈ st.chatSessions, s.isActive = true → st.currentSessionId = some s.id))

/-- The session-list invariant of the claim: at most one active entry,
and an active entry matches the pointer. -/
def activeInvariant (st : WState) : Prop :=
  atMostOneActive st.chatSessions ∧ activeMatchesPointer st

instance (st : WState) : Decidable (activeInvariant st) :=
  inferInstanceAs (Decidable (atMostOneActive st.chatSessions ∧ activeMatchesPointer st))

/-- The session rows delivered by a fetch environment carry pairwise
distinct ids (uniqueness of stored session ids). -/
def fetchEnvNodup (env : FetchEnv) : Prop :=
  ∀ l, env.sessionsResult = FetchResult.ok l → (l.map (fun s => s.id)).Nodup

/-- Uniqueness assumption on the rows delivered by the fetch performed
by an operation (the operations that re-fetch the session list). -/
def opEnvNodup : Op → Prop
  | Op.list env => fetchEnvNodup env
  | Op.create _ => True
  | Op.load _ _ => True
  | Op.del env _ => fetchEnvNodup env.refetch
  | Op.send env => fetchEnvNodup env.refetch

/-- The side condition under which an operation keeps the pointer half
of the invariant: every operation qualifies except a session load whose
message fetch fails, and a delete of the active session whose re-fetch
still returns a row with the deleted id (the failed-delete
reconciliation: the re-fetch closure compares against the stale
pre-delete pointer and re-marks that row active while the committed
pointer is already null). -/
def opKeepsPointer : Op → WState → Prop
  | Op.load env _, _ => env.messagesResult ≠ FetchResult.err
  | Op.del env sid, st =>
      st.currentSessionId = some sid →
        ∀ l, env.refetch.sessionsResult = FetchResult.ok l → ∀ r ∈ l, r.id ≠ sid
  | _, _ => True

/-- A baseline widget state used by the concrete witnesses: open widget,
authenticated user, everything else empty. -/
def baseSt : WState :=
  { isOpen := true, isMaximized := false, isHistoryOpen := false
    messages := [], chatSessions := [], input := "", isLoading := false
    currentSessionId := none, user := some "u1", toasts := [], calls := [] }

/-- A fetch environment returning no sessions. -/
def idleFetchEnv : FetchEnv :=
  { sessionsResult := FetchResult.ok [], lastMessageOf := fun _ => none }

/-- A send environment whose chat invocation succeeds. -/
def okSendEnv : SendEnv :=
  { newSessionId := "id-new", now := 5, chatResult := FetchResult.ok "reply"
    refetch := idleFetchEnv }

/-! ### Helper lemmas -/

/-- The session-list fetch never touches the input field. -/
theorem fetchChatSessionsWith_input (ptr : Option String) (env : FetchEnv) (st : WState) :
    (fetchChatSessionsWith ptr env st).input = st.input := by
  unfold fetchChatSessionsWith
  rcases st.user with _ | userId
  · rfl
  · rcases env.sessionsResult with data | _
    · dsimp only
      split <;> rfl
    · rfl

/-- The session-list fetch never touches the message list. -/
theorem fetchChatSessionsWith_messages (ptr : Option String) (env : FetchEnv) (st : WState) :
    (fetchChatSessionsWith ptr env st).messages = st.messages := by
  unfold fetchChatSessionsWith
  rcases st.user with _ | userId
  · rfl
  · rcases env.sessionsResult with data | _
    · dsimp only
      split <;> rfl
    · rfl

/-- The session-list fetch never touches the active-session pointer. -/
theorem fetchChatSessionsWith_currentSessionId (ptr : Option String) (env : FetchEnv) (st : WState) :
    (fetchChatSessionsWith ptr env st).currentSessionId = st.currentSessionId := by
  unfold fetchChatSessionsWith
  rcases st.user with _ | userId
  · rfl
  · rcases env.sessionsResult with data | _
    · dsimp only
      split <;> rfl
    · rfl

/-! ### C1: send while unauthenticated -/

/-- C1.  For every call of send with non-blank input while no user is
authenticated: no message is appended to the visible list, no network
call is issued (neither to the store nor to the answering service), and
an error notification is shown. -/
theorem handleSend_unauthenticated (env : SendEnv) (st : WState)
    (hin : jsTrim st.input ≠ "") (hu : st.user = none) :
    (handleSend env st).messages = st.messages ∧
    (handleSend env st).calls = st.calls ∧
    (handleSend env st).toasts =
      st.toasts ++ [errorToast "You need to be logged in to send messages."] := by
  unfold handleSend
  rw [if_neg hin, hu]
  exact ⟨rfl, rfl, rfl⟩

/-- Witness for C1 at a concrete state: input "hello", no user. -/
theorem handleSend_unauthenticated_witness :
    jsTrim ({ baseSt with input := "hello", user := none } : WState).input ≠ "" ∧
    ({ baseSt with input := "hello", user := none } : WState).user = none ∧
    ((handleSend okSendEnv { baseSt with input := "hello", user := none }).messages =
        ({ baseSt with input := "hello", user := none } : WState).messages ∧
      (handleSend okSendEnv { baseSt with input := "hello", user := none }).calls =
        ({ baseSt with input := "hello", user := none } : WState).calls ∧
      (handleSend okSendEnv { baseSt with input := "hello", user := none }).toasts =
        ({ baseSt with input := "hello", user := none } : WState).toasts ++
          [errorToast "You need to be logged in to send messages."]) :=
  ⟨by decide, rfl,
    handleSend_unauthenticated okSendEnv { baseSt with input := "hello", user := none }
      (by decide) rfl⟩

/-! ### C6: send on blank input is a no-op -/

/-- C6.  For every input whose trimmed form is empty, send produces no
state change at all: the resulting state is the original state (so the
message list, session list, active-session pointer, input text and
loading flag are unchanged and no network call or toast is recorded). -/
theorem handleSend_blank_noop (env : SendEnv) (st : WState)
    (h : jsTrim st.input = "") :
    handleSend env st = st := by
  unfold handleSend
  rw [if_pos h]

/-- Witness for C6 at a concrete state with whitespace-only input. -/
theorem handleSend_blank_noop_witness :
    jsTrim ({ baseSt with input := "   " } : WState).input = "" ∧
    handleSend okSendEnv { baseSt with input := "   " } = { baseSt with input := "   " } :=
  ⟨by decide, handleSend_blank_noop okSendEnv { baseSt with input := "   " } (by decide)⟩

/-! ### C7: session-list fetch failure -/

/-- C7.  For every failing session-list fetch with an authenticated
user, a destructive toast is raised and the previously displayed session
list is left unchanged (the message list and pointer as well). -/
theorem fetchChatSessions_error_preserves (env : FetchEnv) (st : WState) (userId : String)
    (hu : st.user = some userId) (herr : env.sessionsResult = FetchResult.err) :
    (fetchChatSessions env st).chatSessions = st.chatSessions ∧
    (fetchChatSessions env st).toasts =
      st.toasts ++ [errorToast "Failed to load chat history."] ∧
    (fetchChatSessions env st).messages = st.messages ∧
    (fetchChatSessions env st).currentSessionId = st.currentSessionId := by
  unfold fetchChatSessions fetchChatSessionsWith
  rw [hu, herr]
  exact ⟨rfl, rfl, rfl, rfl⟩

/-- A fetch environment whose session select fails. -/
def errFetchEnv : FetchEnv :=
  { sessionsResult := FetchResult.err, lastMessageOf := fun _ => none }

/-- Witness for C7 at a concrete state and failing environment. -/
theorem fetchChatSessions_error_preserves_witness :
    baseSt.user = some "u1" ∧ errFetchEnv.sessionsResult = FetchResult.err ∧
    ((fetchChatSessions errFetchEnv baseSt).chatSessions = baseSt.chatSessions ∧
      (fetchChatSessions errFetchEnv baseSt).toasts =
        baseSt.toasts ++ [errorToast "Failed to load chat history."] ∧
      (fetchChatSessions errFetchEnv baseSt).messages = baseSt.messages ∧
      (fetchChatSessions errFetchEnv baseSt).currentSessionId = baseSt.currentSessionId) :=
  ⟨rfl, rfl, fetchChatSessions_error_preserves errFetchEnv baseSt "u1" rfl rfl⟩

/-! ### C10: the input field is cleared unconditionally -/

/-- C10.  For every send with non-blank input, the input field is
cleared before the authentication check, and no later branch restores
it: whatever the user and whatever the outcome of the network call, the
resulting input text is empty. -/
theorem handleSend_clears_input (env : SendEnv) (st : WState)
    (hin : jsTrim st.input ≠ "") :
    (handleSend env st).input = "" := by
  unfold handleSend
  rw [if_neg hin]
  rcases st.user with _ | userId
  · rfl
  · rcases st.currentSessionId with _ | sid <;>
      rcases env.chatResult with answer | _ <;>
      first
        | rfl
        | (show (fetchChatSessionsWith _ env.refetch _).input = ""
           rw [fetchChatSessionsWith_input])

/-! ### C2: the preview text of a session -/

/-- When the content does not exceed 30 characters, the preview is the
full content with no ellipsis. -/
theorem previewOf_le (c : String) (h : c.length ≤ 30) : previewOf c = c := by
  unfold previewOf
  rw [if_neg (by omega), String.append_empty, String.take_eq,
    List.take_of_length_le h]

/-- When the content exceeds 30 characters, the preview is the 30-character
truncation with an ellipsis appended. -/
theorem previewOf_gt (c : String) (h : 30 < c.length) :
    previewOf c = c.take 30 ++ "..." := by
  unfold previewOf
  rw [if_pos h]

/-- C2.  For every fetched session that has at least one stored message,
the session list built by the fetch contains an entry for it whose
preview text is the last stored message content, truncated to 30
characters with an ellipsis exactly when the content exceeds 30
characters, and the full content with no ellipsis otherwise. -/
theorem fetchChatSessions_preview (env : FetchEnv) (st : WState) (userId : String)
    (sessionsData : List SessionRecord) (s : SessionRecord) (m : MessageRecord)
    (hu : st.user = some userId)
    (hres : env.sessionsResult = FetchResult.ok sessionsData)
    (hs : s ∈ sessionsData)
    (hm : env.lastMessageOf s.id = some m) :
    ∃ e ∈ (fetchChatSessions env st).chatSessions,
      e.id = s.id ∧
      (m.content.length ≤ 30 → e.lastMessage = m.content) ∧
      (30 < m.content.length → e.lastMessage = m.content.take 30 ++ "...") := by
  have hne : sessionsData.isEmpty = false := by
    cases sessionsData with
    | nil => cases hs
    | cons a l => rfl
  unfold fetchChatSessions fetchChatSessionsWith
  rw [hu, hres]
  dsimp only
  rw [if_neg (by simp [hne])]
  refine ⟨buildSessionEntry st.currentSessionId env s,
    List.mem_map_of_mem _ hs, rfl, ?_, ?_⟩
  · intro hle
    show (buildSessionEntry st.currentSessionId env s).lastMessage = m.content
    unfold buildSessionEntry
    dsimp only
    rw [hm]
    exact previewOf_le m.content hle
  · intro hgt
    show (buildSessionEntry st.currentSessionId env s).lastMessage = m.content.take 30 ++ "..."
    unfold buildSessionEntry
    dsimp only
    rw [hm]
    exact previewOf_gt m.content hgt

/-- A fetch environment with one session whose last stored message is
short, for the C2 witness. -/
def previewFetchEnv : FetchEnv :=
  { sessionsResult := FetchResult.ok [{ id := "s1", title := "T", created_at := 3 }]
    lastMessageOf := fun sid =>
      if sid == "s1" then some { sender := "user", content := "hello world", timestamp := 9 }
      else none }

/-- Witness for C2 at a concrete environment with one stored message. -/
theorem fetchChatSessions_preview_witness :
    baseSt.user = some "u1" ∧
    ("hello world" : String).length ≤ 30 ∧
    ∃ e ∈ (fetchChatSessions previewFetchEnv baseSt).chatSessions,
      e.id = "s1" ∧
      (("hello world" : String).length ≤ 30 → e.lastMessage = "hello world") ∧
      (30 < ("hello world" : String).length → e.lastMessage = ("hello world" : String).take 30 ++ "...") :=
  ⟨rfl, by decide,
    fetchChatSessions_preview previewFetchEnv baseSt "u1"
      [{ id := "s1", title := "T", created_at := 3 }]
      { id := "s1", title := "T", created_at := 3 }
      { sender := "user", content := "hello world", timestamp := 9 }
      rfl rfl (List.mem_singleton.mpr rfl) rfl⟩

/-! ### C4: creating a session -/

/-- Deactivating every entry leaves no active entry. -/
theorem countP_deactivate (l : List ChatSession) :
    (l.map (fun s : ChatSession => { s with isActive := false })).countP
      (fun s => s.isActive) = 0 := by
  rw [List.countP_map]
  exact List.countP_eq_zero.mpr (fun a _ h => Bool.noConfusion h)

/-- C4.  For every authenticated user, after a successful create: the
pointer moves to the new id, the message list is empty, the new entry is
prepended active with all previous entries marked inactive, exactly one
entry of the resulting list is active, and every active entry carries
the new id. -/
theorem createNewChatSession_success (env : CreateEnv) (st : WState) (userId : String)
    (hu : st.user = some userId) (hok : env.insertResult = FetchResult.ok ()) :
    (createNewChatSession env st).currentSessionId = some env.newSessionId ∧
    (createNewChatSession env st).messages = [] ∧
    (createNewChatSession env st).chatSessions =
      ({ id := env.newSessionId, title := "New Chat", lastMessage := ""
         timestamp := env.now, isActive := true } : ChatSession)
        :: st.chatSessions.map (fun s : ChatSession => { s with isActive := false }) ∧
    (createNewChatSession env st).chatSessions.countP (fun s => s.isActive) = 1 ∧
    (∀ s ∈ (createNewChatSession env st).chatSessions,
      s.isActive = true → s.id = env.newSessionId) := by
  unfold createNewChatSession
  rw [hu, hok]
  refine ⟨rfl, rfl, rfl, ?_, ?_⟩
  · show (_ :: st.chatSessions.map (fun s : ChatSession => { s with isActive := false })).countP
      (fun s => s.isActive) = 1
    rw [List.countP_cons_of_pos _ _ (by rfl), countP_deactivate]
  · intro s hs hact
    rcases List.mem_cons.mp hs with rfl | hmem
    · rfl
    · rcases List.mem_map.mp hmem with ⟨t, _, rfl⟩
      exact Bool.noConfusion hact

/-- A create environment whose insert succeeds, for the C4 witness. -/
def okCreateEnv : CreateEnv :=
  { newSessionId := "id-new", insertResult := FetchResult.ok (), now := 7 }

/-- A state holding one inactive session, for concrete witnesses. -/
def oneSessionSt : WState :=
  { baseSt with
      chatSessions := [{ id := "s1", title := "T", lastMessage := "", timestamp := 1, isActive := false }] }

/-- Witness for C4 at a concrete state with one pre-existing session. -/
theorem createNewChatSession_success_witness :
    oneSessionSt.user = some "u1" ∧ okCreateEnv.insertResult = FetchResult.ok () ∧
    ((createNewChatSession okCreateEnv oneSessionSt).currentSessionId = some "id-new" ∧
      (createNewChatSession okCreateEnv oneSessionSt).messages = [] ∧
      (createNewChatSession okCreateEnv oneSessionSt).chatSessions.countP
        (fun s => s.isActive) = 1) :=
  ⟨rfl, rfl,
    (createNewChatSession_success okCreateEnv oneSessionSt "u1" rfl rfl).1,
    (createNewChatSession_success okCreateEnv oneSessionSt "u1" rfl rfl).2.1,
    (createNewChatSession_success okCreateEnv oneSessionSt "u1" rfl rfl).2.2.2.1⟩

/-! ### C5: loading a session -/

/-- Counting entries whose key equals a value is counting the value
among the keys. -/
theorem countP_key_eq_count {α : Type} (f : α → String) (l : List α) (x : String) :
    l.countP (fun a => f a == x) = (l.map f).count x := by
  rw [List.count, List.countP_map]
  rfl

/-- Marking active exactly the entries with a given id yields exactly
one active entry when the id occurs in a duplicate-free id list. -/
theorem countP_markActive_eq_one (l : List ChatSession) (sid : String)
    (hnd : (l.map (fun s => s.id)).Nodup) (hmem : sid ∈ l.map (fun s => s.id)) :
    (l.map (fun s : ChatSession => { s with isActive := s.id == sid })).countP
      (fun s => s.isActive) = 1 := by
  rw [List.countP_map]
  have h1 : ((fun s => s.isActive) ∘ fun s : ChatSession => { s with isActive := s.id == sid }) =
      fun s : ChatSession => s.id == sid := rfl
  rw [h1, countP_key_eq_count (fun s : ChatSession => s.id) l sid]
  exact List.count_eq_one_of_mem hnd hmem

/-- Marking active exactly the entries with a given id yields at most
one active entry when the id list is duplicate-free. -/
theorem countP_markActive_le_one (l : List ChatSession) (sid : String)
    (hnd : (l.map (fun s => s.id)).Nodup) :
    (l.map (fun s : ChatSession => { s with isActive := s.id == sid })).countP
      (fun s => s.isActive) ≤ 1 := by
  rw [List.countP_map]
  have h1 : ((fun s => s.isActive) ∘ fun s : ChatSession => { s with isActive := s.id == sid }) =
      fun s : ChatSession => s.id == sid := rfl
  rw [h1, countP_key_eq_count (fun s : ChatSession => s.id) l sid]
  exact List.nodup_iff_count_le_one.mp hnd sid

/-- C5.  For every session id present in a duplicate-free session list,
after a successful load: exactly one entry of the list is active, an
entry is active exactly when it carries the requested id, the pointer
moves to the requested id, the visible message list is replaced by the
mapped store rows, and (given that the store delivers them oldest-first)
the displayed timestamps are in ascending order. -/
theorem loadChatSession_success (env : LoadEnv) (sessionId : String) (st : WState)
    (data : List MessageRecord)
    (hok : env.messagesResult = FetchResult.ok data)
    (hnd : (st.chatSessions.map (fun s => s.id)).Nodup)
    (hmem : sessionId ∈ st.chatSessions.map (fun s => s.id))
    (hsort : (data.map (fun m => m.timestamp)).Chain' (· ≤ ·)) :
    (loadChatSession env sessionId st).chatSessions.countP (fun s => s.isActive) = 1 ∧
    (∀ s ∈ (loadChatSession env sessionId st).chatSessions,
      s.isActive = true ↔ s.id = sessionId) ∧
    (loadChatSession env sessionId st).currentSessionId = some sessionId ∧
    (loadChatSession env sessionId st).messages = data.map formatStoredMessage ∧
    ((loadChatSession env sessionId st).messages.map (fun m => m.timestamp)).Chain' (· ≤ ·) := by
  unfold loadChatSession
  rw [hok]
  dsimp only
  refine ⟨countP_markActive_eq_one st.chatSessions sessionId hnd hmem, ?_, rfl, rfl, ?_⟩
  · intro s hs
    rcases List.mem_map.mp hs with ⟨t, _, rfl⟩
    constructor
    · intro hact
      exact beq_iff_eq.mp hact
    · intro hid
      exact beq_iff_eq.mpr hid
  · rw [List.map_map]
    exact hsort

/-- The message rows used by the C5 witness, delivered oldest-first. -/
def loadedRows : List MessageRecord :=
  [{ sender := "user", content := "a", timestamp := 1 },
   { sender := "bot", content := "b", timestamp := 2 }]

/-- A load environment delivering the witness rows. -/
def okMsgsLoadEnv : LoadEnv :=
  { messagesResult := FetchResult.ok loadedRows, now := 0 }

/-- Witness for C5 at a concrete one-session state. -/
theorem loadChatSession_success_witness :
    okMsgsLoadEnv.messagesResult = FetchResult.ok loadedRows ∧
    (oneSessionSt.chatSessions.map (fun s => s.id)).Nodup ∧
    "s1" ∈ oneSessionSt.chatSessions.map (fun s => s.id) ∧
    (loadedRows.map (fun m => m.timestamp)).Chain' (· ≤ ·) ∧
    ((loadChatSession okMsgsLoadEnv "s1" oneSessionSt).chatSessions.countP
        (fun s => s.isActive) = 1 ∧
      (∀ s ∈ (loadChatSession okMsgsLoadEnv "s1" oneSessionSt).chatSessions,
        s.isActive = true ↔ s.id = "s1") ∧
      (loadChatSession okMsgsLoadEnv "s1" oneSessionSt).currentSessionId = some "s1" ∧
      (loadChatSession okMsgsLoadEnv "s1" oneSessionSt).messages =
        loadedRows.map formatStoredMessage ∧
      ((loadChatSession okMsgsLoadEnv "s1" oneSessionSt).messages.map
        (fun m => m.timestamp)).Chain' (· ≤ ·)) :=
  ⟨rfl, by decide, by decide, by simp [loadedRows],
    loadChatSession_success okMsgsLoadEnv "s1" oneSessionSt loadedRows rfl
      (by decide) (by decide) (by simp [loadedRows])⟩

/-! ### C3: deleting a session -/

/-- The three possible shapes of the session list after a fetch: left
unchanged (no user or a failing select), cleared (empty result), or
rebuilt from the delivered rows against the captured pointer. -/
theorem fetchChatSessionsWith_chatSessions_cases (ptr : Option String) (env : FetchEnv)
    (st : WState) :
    (fetchChatSessionsWith ptr env st).chatSessions = st.chatSessions ∨
    (fetchChatSessionsWith ptr env st).chatSessions = [] ∨
    ∃ l, env.sessionsResult = FetchResult.ok l ∧
      (fetchChatSessionsWith ptr env st).chatSessions =
        l.map (buildSessionEntry ptr env) := by
  unfold fetchChatSessionsWith
  rcases st.user with _ | userId
  · exact Or.inl rfl
  · rcases hres : env.sessionsResult with data | _
    · dsimp only
      split
      · exact Or.inr (Or.inl rfl)
      · exact Or.inr (Or.inr ⟨data, rfl, rfl⟩)
    · exact Or.inl rfl

/-- The state holding one active session used by the delete scenarios. -/
def delSt : WState :=
  { baseSt with
      chatSessions := [{ id := "s1", title := "T", lastMessage := "", timestamp := 1, isActive := true }]
      currentSessionId := some "s1" }

/-- A delete environment whose delete invocation fails while the
re-fetch still returns the undeleted row. -/
def failDelEnv : DeleteEnv :=
  { deleteResult := FetchResult.err
    refetch :=
      { sessionsResult := FetchResult.ok [{ id := "s1", title := "T", created_at := 1 }]
        lastMessageOf := fun _ => none } }

/-- C3 counterexample.  When the delete invocation fails and the
re-fetch returns the authoritative list still holding the session, an
entry with the deleted id is back in the visible list after the
operation completes — refuting the claim that no session with that id
remains after every completed delete. -/
theorem deleteChatSession_failure_restores :
    ∃ s ∈ (deleteChatSession failDelEnv "s1" delSt).chatSessions, s.id = "s1" := by
  decide

/-- C3 amended.  After a delete whose re-fetch delivers an authoritative
list free of the deleted id (in particular after a successful backend
delete), no session with that id remains in the visible list; and
unconditionally, if the deleted session was the active one, the visible
message list is empty and the pointer is null after the operation. -/
theorem deleteChatSession_removes_id (env : DeleteEnv) (sessionId : String) (st : WState)
    (href : ∀ l, env.refetch.sessionsResult = FetchResult.ok l → ∀ r ∈ l, r.id ≠ sessionId) :
    (∀ s ∈ (deleteChatSession env sessionId st).chatSessions, s.id ≠ sessionId) ∧
    (st.currentSessionId = some sessionId →
      (deleteChatSession env sessionId st).messages = [] ∧
      (deleteChatSession env sessionId st).currentSessionId = none) := by
  constructor
  · have hcases :
        (deleteChatSession env sessionId st).chatSessions =
          (st.chatSessions.filter (fun s => s.id != sessionId)) ∨
        (deleteChatSession env sessionId st).chatSessions = [] ∨
        ∃ l, env.refetch.sessionsResult = FetchResult.ok l ∧
          ∃ ptr, (deleteChatSession env sessionId st).chatSessions =
            l.map (buildSessionEntry ptr env.refetch) := by
      unfold deleteChatSession
      rcases env.deleteResult with _ | _ <;>
        · dsimp only
          split <;>
            · rcases fetchChatSessionsWith_chatSessions_cases st.currentSessionId
                  env.refetch _ with h | h | ⟨l, hl, h⟩
              · exact Or.inl h
              · exact Or.inr (Or.inl h)
              · exact Or.inr (Or.inr ⟨l, hl, _, h⟩)
    intro s hs
    rcases hcases with h | h | ⟨l, hl, ptr, h⟩
    · rw [h] at hs
      exact bne_iff_ne.mp (List.mem_filter.mp hs).2
    · rw [h] at hs
      cases hs
    · rw [h] at hs
      rcases List.mem_map.mp hs with ⟨r, hr, rfl⟩
      exact href l hl r hr
  · intro hcur
    have hbeq : (st.currentSessionId == some sessionId) = true := beq_iff_eq.mpr hcur
    unfold deleteChatSession
    rcases env.deleteResult with _ | _ <;>
      · dsimp only
        rw [hbeq]
        rw [if_pos rfl]
        constructor
        · rw [fetchChatSessionsWith_messages]
        · rw [fetchChatSessionsWith_currentSessionId]

/-- A delete environment whose delete succeeds and whose re-fetch
returns an empty authoritative list. -/
def okDelEnv : DeleteEnv :=
  { deleteResult := FetchResult.ok (), refetch := idleFetchEnv }

/-- Witness for the amended C3 at a concrete state and a successful
delete. -/
theorem deleteChatSession_removes_id_witness :
    delSt.currentSessionId = some "s1" ∧
    ((∀ s ∈ (deleteChatSession okDelEnv "s1" delSt).chatSessions, s.id ≠ "s1") ∧
      (delSt.currentSessionId = some "s1" →
        (deleteChatSession okDelEnv "s1" delSt).messages = [] ∧
        (deleteChatSession okDelEnv "s1" delSt).currentSessionId = none)) :=
  ⟨rfl,
    deleteChatSession_removes_id okDelEnv "s1" delSt (by
      intro l hl
      simp only [okDelEnv, idleFetchEnv] at hl
      cases hl
      intro r hr
      cases hr)⟩

/-! ### C9: provisional session id on a failed send -/

/-- A state about to send its first message: authenticated user,
non-blank input, no active session. -/
def provSendSt : WState := { baseSt with input := "hello" }

/-- A send environment whose chat invocation fails, with the
client-generated provisional session id. -/
def failSendEnv : SendEnv :=
  { newSessionId := "prov-1", now := 5, chatResult := FetchResult.err
    refetch := idleFetchEnv }

/-- C9 evaluation.  Starting from a state with no active session, a send
whose backend call fails leaves the active-session pointer holding the
provisional client-generated id: the unacknowledged id silently persists
in UI state, contradicting the claim. -/
theorem handleSend_failure_keeps_provisional_id :
    provSendSt.currentSessionId = none ∧
    failSendEnv.chatResult = FetchResult.err ∧
    (handleSend failSendEnv provSendSt).currentSessionId = some "prov-1" := by
  refine ⟨rfl, rfl, ?_⟩
  decide

/-! ### C8: the active-session invariant -/

/-- The invariant only looks at the session list and the pointer, so it
transfers along states agreeing on those two fields. -/
theorem activeInvariant_of_eq {t s : WState}
    (hc : t.chatSessions = s.chatSessions)
    (hp : t.currentSessionId = s.currentSessionId)
    (h : activeInvariant s) : activeInvariant t := by
  obtain ⟨h1, h2⟩ := h
  constructor
  · unfold atMostOneActive at h1 ⊢
    rw [hc]
    exact h1
  · intro x hx ha
    rw [hc] at hx
    rw [hp]
    exact h2 x hx ha

/-- A list rebuilt by the fetch has at most one active entry when the
delivered row ids are duplicate-free. -/
theorem countP_build_le_one (ptr : Option String) (env : FetchEnv) (l : List SessionRecord)
    (hnd : (l.map (fun r => r.id)).Nodup) :
    (l.map (buildSessionEntry ptr env)).countP (fun s => s.isActive) ≤ 1 := by
  rw [List.countP_map]
  cases ptr with
  | none =>
    have h0 : l.countP ((fun s => s.isActive) ∘ buildSessionEntry none env) = 0 :=
      List.countP_eq_zero.mpr (fun a _ h => Bool.noConfusion h)
    rw [h0]
    exact Nat.zero_le 1
  | some x =>
    have h1 : ((fun s => s.isActive) ∘ buildSessionEntry (some x) env) =
        fun r : SessionRecord => r.id == x := rfl
    rw [h1, countP_key_eq_count (fun r : SessionRecord => r.id) l x]
    exact List.nodup_iff_count_le_one.mp hnd x

/-- An entry of a rebuilt list is active exactly by comparison with the
pointer the fetch closed over. -/
theorem build_active_matches (ptr : Option String) (env : FetchEnv) (l : List SessionRecord) :
    ∀ s ∈ l.map (buildSessionEntry ptr env), s.isActive = true → ptr = some s.id := by
  intro s hs hact
  rcases List.mem_map.mp hs with ⟨r, _, rfl⟩
  exact (beq_iff_eq.mp hact).symm

/-- The session-list fetch preserves the invariant when the delivered
row ids are duplicate-free and the captured pointer agrees with the
committed pointer of the state the fetch runs on. -/
theorem activeInvariant_fetchWith (ptr : Option String) (env : FetchEnv) (st : WState)
    (hp : ptr = st.currentSessionId)
    (henv : fetchEnvNodup env) (hinv : activeInvariant st) :
    activeInvariant (fetchChatSessionsWith ptr env st) := by
  subst hp
  unfold fetchChatSessionsWith
  rcases st.user with _ | userId
  · exact hinv
  · rcases hres : env.sessionsResult with data | _
    · dsimp only
      split
      · constructor
        · show atMostOneActive []
          decide
        · intro s hs
          cases hs
      · constructor
        · exact countP_build_le_one st.currentSessionId env data (henv data hres)
        · intro s hs hact
          exact build_active_matches st.currentSessionId env data s hs hact
    · exact activeInvariant_of_eq rfl rfl hinv

/-- The fetch followed by an overwrite of the loading flag preserves the
invariant when the captured pointer agrees with the committed one. -/
theorem activeInvariant_fetchWith_isLoading (ptr : Option String) (env : FetchEnv)
    (st : WState) (b : Bool) (hp : ptr = st.currentSessionId)
    (henv : fetchEnvNodup env) (h : activeInvariant st) :
    activeInvariant { fetchChatSessionsWith ptr env st with isLoading := b } :=
  activeInvariant_of_eq rfl rfl (activeInvariant_fetchWith ptr env st hp henv h)

/-- When the state holds no active entry and no delivered row matches
the captured pointer, the fetch leaves no active entry either, so the
invariant holds whatever the committed pointer is. -/
theorem activeInvariant_fetchWith_noActive (ptr : Option String) (env : FetchEnv)
    (st : WState) (b : Bool)
    (hno : ∀ s ∈ st.chatSessions, s.isActive ≠ true)
    (hrows : ∀ l, env.sessionsResult = FetchResult.ok l → ∀ r ∈ l, some r.id ≠ ptr) :
    activeInvariant { fetchChatSessionsWith ptr env st with isLoading := b } := by
  have hnone : ∀ s ∈ (fetchChatSessionsWith ptr env st).chatSessions, s.isActive ≠ true := by
    rcases fetchChatSessionsWith_chatSessions_cases ptr env st with h | h | ⟨l, hl, h⟩
    · rw [h]
      exact hno
    · rw [h]
      intro s hs
      cases hs
    · rw [h]
      intro s hs hact
      rcases List.mem_map.mp hs with ⟨r, hr, rfl⟩
      exact hrows l hl r hr (beq_iff_eq.mp hact)
  constructor
  · show atMostOneActive (fetchChatSessionsWith ptr env st).chatSessions
    unfold atMostOneActive
    have h0 : (fetchChatSessionsWith ptr env st).chatSessions.countP (fun s => s.isActive) = 0 :=
      List.countP_eq_zero.mpr hnone
    rw [h0]
    exact Nat.zero_le 1
  · intro s hs hact
    exact absurd hact (hnone s hs)

/-- The three possible shapes of the session list after a delete: the
optimistically filtered list (the re-fetch skipped or failed), the empty
list, or the list rebuilt from the re-fetched rows against the stale
pre-delete pointer. -/
theorem deleteChatSession_chatSessions_cases (env : DeleteEnv) (sid : String) (st : WState) :
    (deleteChatSession env sid st).chatSessions =
      st.chatSessions.filter (fun s => s.id != sid) ∨
    (deleteChatSession env sid st).chatSessions = [] ∨
    ∃ l, env.refetch.sessionsResult = FetchResult.ok l ∧
      (deleteChatSession env sid st).chatSessions =
        l.map (buildSessionEntry st.currentSessionId env.refetch) := by
  unfold deleteChatSession
  rcases env.deleteResult with _ | _ <;>
    · dsimp only
      split <;>
        · rcases fetchChatSessionsWith_chatSessions_cases st.currentSessionId
              env.refetch _ with h | h | ⟨l, hl, h⟩
          · exact Or.inl h
          · exact Or.inr (Or.inl h)
          · exact Or.inr (Or.inr ⟨l, hl, h⟩)

/-- A two-session state satisfying the invariant, with the first session
active. -/
def invSt : WState :=
  { baseSt with
      chatSessions :=
        [{ id := "s1", title := "A", lastMessage := "", timestamp := 1, isActive := true },
         { id := "s2", title := "B", lastMessage := "", timestamp := 2, isActive := false }]
      currentSessionId := some "s1" }

/-- A load environment whose message select fails. -/
def errLoadEnv : LoadEnv := { messagesResult := FetchResult.err, now := 0 }

/-- C8 counterexample.  A failing load of session "s2" from a valid
two-session state leaves "s2" optimistically marked active while the
pointer still holds "s1": the claimed invariant is not preserved by
every operation. -/
theorem load_failure_breaks_invariant :
    (invSt.chatSessions.map (fun s => s.id)).Nodup ∧
    activeInvariant invSt ∧
    ¬ activeInvariant (step (Op.load errLoadEnv "s2") invSt) := by
  refine ⟨by decide, by decide, by decide⟩

/-- C8 amended.  Assuming the ids in the visible list (and in any list
a re-fetch delivers) are unique, every operation preserves the
at-most-one-active half of the invariant; and every operation also
preserves the pointer half (an active entry carries the id held by the
active-session pointer) except two failure reconciliations: a session
load whose message fetch fails (the requested session stays
optimistically marked active while the pointer is unchanged), and a
delete of the active session whose re-fetch still returns a row with
the deleted id (the re-fetch closure compares against the stale
pre-delete pointer and re-marks that row active while the committed
pointer is already null). -/
theorem activeInvariant_step (st : WState) (op : Op)
    (hnd : (st.chatSessions.map (fun s => s.id)).Nodup)
    (henv : opEnvNodup op)
    (hinv : activeInvariant st) :
    atMostOneActive ((step op st).chatSessions) ∧
    (opKeepsPointer op st → activeInvariant (step op st)) := by
  cases op with
  | list env =>
    have h : activeInvariant (fetchChatSessions env st) :=
      activeInvariant_fetchWith st.currentSessionId env st rfl henv hinv
    exact ⟨h.1, fun _ => h⟩
  | create env =>
    have h : activeInvariant (createNewChatSession env st) := by
      unfold createNewChatSession
      rcases st.user with _ | userId
      · exact hinv
      · cases env.insertResult with
        | ok d =>
          dsimp only
          constructor
          · show atMostOneActive
              (_ :: st.chatSessions.map (fun s : ChatSession => { s with isActive := false }))
            unfold atMostOneActive
            rw [List.countP_cons_of_pos _ _ (by rfl), countP_deactivate]
          · intro s hs hact
            rcases List.mem_cons.mp hs with rfl | hmem
            · rfl
            · rcases List.mem_map.mp hmem with ⟨t, _, rfl⟩
              exact Bool.noConfusion hact
        | err => exact activeInvariant_of_eq rfl rfl hinv
    exact ⟨h.1, fun _ => h⟩
  | load env sid =>
    cases hres : env.messagesResult with
    | ok data =>
      have h : activeInvariant (loadChatSession env sid st) := by
        unfold loadChatSession
        rw [hres]
        dsimp only
        constructor
        · exact countP_markActive_le_one st.chatSessions sid hnd
        · intro s hs hact
          rcases List.mem_map.mp hs with ⟨t, _, rfl⟩
          exact congrArg some (beq_iff_eq.mp hact).symm
      exact ⟨h.1, fun _ => h⟩
    | err =>
      constructor
      · show atMostOneActive (loadChatSession env sid st).chatSessions
        unfold loadChatSession
        rw [hres]
        dsimp only
        exact countP_markActive_le_one st.chatSessions sid hnd
      · intro hok
        exact absurd hres hok
  | del env sid =>
    constructor
    · show atMostOneActive (deleteChatSession env sid st).chatSessions
      rcases deleteChatSession_chatSessions_cases env sid st with h | h | ⟨l, hl, h⟩
      · unfold atMostOneActive
        rw [h]
        exact le_trans ((List.filter_sublist st.chatSessions).countP_le _) hinv.1
      · unfold atMostOneActive
        rw [h]
        exact Nat.zero_le 1
      · unfold atMostOneActive
        rw [h]
        exact countP_build_le_one st.currentSessionId env.refetch l (henv l hl)
    · intro hkeep
      show activeInvariant (deleteChatSession env sid st)
      unfold deleteChatSession
      cases env.deleteResult with
      | ok d =>
        dsimp only
        split
        next hc =>
          have hcur : st.currentSessionId = some sid := beq_iff_eq.mp hc
          apply activeInvariant_fetchWith_noActive
          · intro s hs hact
            have hmem := List.mem_filter.mp hs
            have hptr := hinv.2 s hmem.1 hact
            rw [hcur] at hptr
            exact (bne_iff_ne.mp hmem.2) (Option.some.inj hptr).symm
          · intro l hl r hr hEq
            rw [hcur] at hEq
            exact hkeep hcur l hl r hr (Option.some.inj hEq)
        next hc =>
          apply activeInvariant_fetchWith_isLoading _ env.refetch _ false _ henv
          · constructor
            · show atMostOneActive (st.chatSessions.filter (fun s => s.id != sid))
              unfold atMostOneActive
              exact le_trans ((List.filter_sublist st.chatSessions).countP_le _) hinv.1
            · intro s hs hact
              exact hinv.2 s (List.mem_filter.mp hs).1 hact
          · rfl
      | err =>
        dsimp only
        split
        next hc =>
          have hcur : st.currentSessionId = some sid := beq_iff_eq.mp hc
          apply activeInvariant_fetchWith_noActive
          · intro s hs hact
            have hmem := List.mem_filter.mp hs
            have hptr := hinv.2 s hmem.1 hact
            rw [hcur] at hptr
            exact (bne_iff_ne.mp hmem.2) (Option.some.inj hptr).symm
          · intro l hl r hr hEq
            rw [hcur] at hEq
            exact hkeep hcur l hl r hr (Option.some.inj hEq)
        next hc =>
          apply activeInvariant_fetchWith_isLoading _ env.refetch _ false _ henv
          · constructor
            · show atMostOneActive (st.chatSessions.filter (fun s => s.id != sid))
              unfold atMostOneActive
              exact le_trans ((List.filter_sublist st.chatSessions).countP_le _) hinv.1
            · intro s hs hact
              exact hinv.2 s (List.mem_filter.mp hs).1 hact
          · rfl
  | send env =>
    have h : activeInvariant (handleSend env st) := by
      unfold handleSend
      by_cases hin : jsTrim st.input = ""
      · rw [if_pos hin]
        exact hinv
      · rw [if_neg hin]
        rcases st.user with _ | userId
        · exact activeInvariant_of_eq rfl rfl hinv
        · dsimp only
          cases hcur : st.currentSessionId with
          | none =>
            cases env.chatResult with
            | ok answer =>
              apply activeInvariant_fetchWith_noActive
              · intro s hs hact
                have h2 := hinv.2 s hs hact
                rw [hcur] at h2
                cases h2
              · intro l hl r hr hEq
                exact Option.noConfusion hEq
            | err =>
              constructor
              · exact hinv.1
              · intro s hs hact
                exfalso
                have h2 := hinv.2 s hs hact
                rw [hcur] at h2
                cases h2
          | some sid0 =>
            cases env.chatResult with
            | ok answer =>
              apply activeInvariant_fetchWith_isLoading _ env.refetch _ false _ henv
              · constructor
                · exact hinv.1
                · intro s hs hact
                  have h2 := hinv.2 s hs hact
                  rw [hcur] at h2
                  exact h2
              · rfl
            | err =>
              constructor
              · exact hinv.1
              · intro s hs hact
                have h2 := hinv.2 s hs hact
                rw [hcur] at h2
                exact h2
    exact ⟨h.1, fun _ => h⟩

/-- A load environment delivering an empty message list. -/
def okLoadEnvEmpty : LoadEnv := { messagesResult := FetchResult.ok [], now := 0 }

/-- Witness for the amended C8 at a concrete successful load. -/
theorem activeInvariant_step_witness :
    (invSt.chatSessions.map (fun s => s.id)).Nodup ∧
    activeInvariant invSt ∧
    (atMostOneActive ((step (Op.load okLoadEnvEmpty "s2") invSt).chatSessions) ∧
      (opKeepsPointer (Op.load okLoadEnvEmpty "s2") invSt →
        activeInvariant (step (Op.load okLoadEnvEmpty "s2") invSt))) :=
  ⟨by decide, by decide,
    activeInvariant_step invSt (Op.load okLoadEnvEmpty "s2") (by decide) trivial (by decide)⟩

/-- Witness for C10: an unauthenticated send and a failing authenticated
send both leave the input cleared. -/
theorem handleSend_clears_input_witness :
    jsTrim ({ baseSt with input := "hi", user := none } : WState).input ≠ "" ∧
    (handleSend okSendEnv { baseSt with input := "hi", user := none }).input = "" :=
  ⟨by decide,
    handleSend_clears_input okSendEnv { baseSt with input := "hi", user := none } (by decide)⟩

end PoliChat
